import Mathlib

/-!
A verification development for the strumbot stream-lifecycle engine.

The Rust sources are shallowly embedded: pure data types become Lean
structures, stateful methods become explicit state-passing functions, and
every network call made during the handling of one event is replaced by its
outcome, packaged in a `ClientEnv` record that the handler consumes.  Machine
integers (u8/u32/u64 second counts) are modelled as `Nat`; all the arithmetic
involved stays far below the overflow bounds of the original types except
where noted.  A Rust `panic!` / `expect` / out-of-bounds slice is modelled by
returning `none` from an `Option`-valued function.  Message/embed payload
rendering is abstracted to the list of emitted notification tags, except for
the clip-title formatting, which is modelled byte-faithfully because its
string slicing is panic-relevant.
-/

namespace Strumbot

/-! ## Core data model (src/src/twitch/model.rs) -/

/-- Category/game metadata, from `struct Game` in src/src/twitch/model.rs. -/
structure Game where
  id : String
  name : String
deriving DecidableEq

/-- The well-known empty sentinel, `Game::empty()`. -/
def Game.empty : Game := { id := "", name := "No Category" }

/-- The `Game::is_empty` predicate: a game is empty iff its id is empty. -/
def Game.isEmptySentinel (g : Game) : Bool := g.id = ""

/-- One poll's view of a channel, from `struct Stream`.  Timestamps are
seconds since the epoch. -/
structure Stream where
  id : String
  game_id : String
  title : String
  user_id : String
  user_login : String
  user_name : String
  started_at : Nat
deriving DecidableEq

/-- A recording, from `struct Video`; only the fields the watcher reads. -/
structure Video where
  id : String
  url : String
  title : String
  duration : Nat
deriving DecidableEq

/-- A clip, from `struct Clip`; only the fields the watcher reads. -/
structure Clip where
  title : String
  url : String
  view_count : Nat
deriving DecidableEq

/-! ## Error taxonomy (src/src/error.rs) -/

/-- The `RequestError` sum type.  The payloads of `Http` keep the numeric
status; `Unexpected` and `Deserialize` payloads are irrelevant to control
flow and are dropped. -/
inductive RequestError where
  | http (status : Nat)
  | timeout
  | unexpected
  | deserialize
  | notFound (kind query : String)
deriving DecidableEq

/-- An error is fatal for the watcher when it is neither `NotFound` nor
`Deserialize`; those two are absorbed by `add_segment`
(src/src/watcher.rs lines 436-444). -/
def RequestError.fatal : RequestError → Bool
  | .deserialize => false
  | .notFound _ _ => false
  | _ => true

/-- The boxed error type the watcher handlers return (`AsyncError`): either
an upstream `RequestError` or the message-validation error produced by the
fallible `webhook.send_message().content(&content)?` call (twilight's
content-length validation, src/src/watcher.rs lines 181, 250 and 306). -/
inductive WatcherError where
  | request (e : RequestError)
  | validation
deriving DecidableEq

/-! ## Configuration (src/src/config/mod.rs), restricted to the fields the
watcher reads. -/

/-- Event kinds from `enum EventName`. -/
inductive EventName where
  | live
  | vod
  | update
deriving DecidableEq

/-- The configuration fields consumed by the watcher state machine:
`discord.enabled_events`, `twitch.offline_grace_period` (minutes, u8) and
`twitch.top_clips` (u8). -/
structure Config where
  enabled_events : List EventName
  offline_grace_period : Nat
  top_clips : Nat
deriving DecidableEq

/-- The `Default` instance used by serde for the skipped `config` field of
`StreamWatcher` (`#[serde(default, skip)]`). -/
def Config.defaultConfig : Config :=
  { enabled_events := [], offline_grace_period := 0, top_clips := 0 }

/-! ## Watcher state (src/src/watcher.rs) -/

/-- One contiguous (category, recording) pairing, from `struct StreamSegment`. -/
structure StreamSegment where
  game : Game
  position : Nat
  video_id : String
deriving DecidableEq

/-- The per-channel persisted/in-memory record, from `struct StreamWatcher`.
The `config` field carries the `#[serde(default, skip)]` attribute in the
source: it is excluded from serialization. -/
structure StreamWatcher where
  user_name : String
  user_id : String
  stream_id : String
  segments : List StreamSegment
  start_timestamp : Nat
  offline_timestamp : Option Nat
  config : Config
deriving DecidableEq

/-- Incoming event for one watcher, from `enum StreamUpdate`. -/
inductive StreamUpdate where
  | live (stream : Stream)
  | offline
deriving DecidableEq

/-- The outcome reported by `StreamWatcher::update`, from `enum WatcherState`. -/
inductive WatcherState where
  | unchanged
  | ended
  | updated
deriving DecidableEq

/-- The outcomes of the network calls a single event-handling attempt can
issue.  Each field is the result the corresponding client call would return;
`now` is the current wall-clock second.  `contentOk` is the outcome of the
twilight message-content validation performed by the handler's single
`webhook.send_message().content(&content)?` call on the rendered
notification content (the rendering itself, which mixes in the configured
mention string, is abstracted; `false` means the validation error
propagates through the `?`). -/
structure ClientEnv where
  now : Nat
  gameResult : Except RequestError Game
  videoOfStream : Except RequestError Video
  videoById : Except RequestError Video
  videosResult : Except RequestError (List Video)
  clipsResult : Except RequestError (List Clip)
  contentOk : Bool

/-- Result of one handler invocation: the (possibly partially mutated)
watcher, the returned value or error, and the tags of the notifications that
were sent.  A handler that panics yields `none` at the outer `Option`. -/
structure Step (α : Type) where
  watcher : StreamWatcher
  result : Except WatcherError α
  notifications : List String

/-- List helper mirroring mutation of the last element of a Vec through the
mutable reference returned by `add_segment`. -/
def modifyLast (f : α → α) : List α → List α
  | [] => []
  | [a] => [f a]
  | a :: rest => a :: modifyLast f rest

/-- Embeds `StreamSegment::from` (src/src/watcher.rs lines 38-57): the
position is now minus the snapshot's start time in seconds, and the video id
degrades to the empty string when the video lookup fails. -/
def StreamSegment.ofStream (env : ClientEnv) (stream : Stream) (game : Game) :
    StreamSegment :=
  { game := game
    position := env.now - stream.started_at
    video_id :=
      match env.videoOfStream with
      | .ok v => v.id
      | .error _ => "" }

/-- Embeds `StreamWatcher::is_skipped`. -/
def StreamWatcher.is_skipped (w : StreamWatcher) (event : EventName) : Bool :=
  ¬ w.config.enabled_events.contains event

/-- Embeds `StreamWatcher::add_segment` (src/src/watcher.rs lines 430-449):
`NotFound` and `Deserialize` game lookups degrade to the empty sentinel, any
other error propagates; on success the new segment is pushed.  Returns the
updated watcher together with the pushed segment. -/
def StreamWatcher.add_segment (w : StreamWatcher) (env : ClientEnv)
    (stream : Stream) : Except RequestError (StreamWatcher × StreamSegment) :=
  match env.gameResult with
  | .ok g =>
      let seg := StreamSegment.ofStream env stream g
      .ok ({ w with segments := w.segments ++ [seg] }, seg)
  | .error .deserialize =>
      let seg := StreamSegment.ofStream env stream Game.empty
      .ok ({ w with segments := w.segments ++ [seg] }, seg)
  | .error (.notFound _ _) =>
      let seg := StreamSegment.ofStream env stream Game.empty
      .ok ({ w with segments := w.segments ++ [seg] }, seg)
  | .error e => .error e

/-- Embeds `StreamWatcher::on_go_live` (src/src/watcher.rs lines 149-186).
State fields are overwritten before the fallible `add_segment` call, exactly
as in the source; the first segment's position is then forced to 0.  When
the live event is not suppressed, the fallible
`webhook.send_message().content(&content)?` call (line 181) runs after the
segment push and can propagate a validation error. -/
def StreamWatcher.on_go_live (w : StreamWatcher) (env : ClientEnv)
    (stream : Stream) : Step Unit :=
  let w1 := { w with
    offline_timestamp := none
    start_timestamp := stream.started_at
    user_id := stream.user_id
    stream_id := stream.id }
  match w1.add_segment env stream with
  | .error e => { watcher := w1, result := .error (.request e), notifications := [] }
  | .ok (w2, _) =>
      let w3 := { w2 with
        segments := modifyLast (fun s => { s with position := 0 }) w2.segments }
      if w3.is_skipped .live then
        { watcher := w3, result := .ok (), notifications := [] }
      else if env.contentOk then
        { watcher := w3, result := .ok (), notifications := ["live"] }
      else
        { watcher := w3, result := .error .validation, notifications := [] }

/-- Embeds `StreamWatcher::on_update` (src/src/watcher.rs lines 188-255).
The offline deadline is cleared unconditionally at entry; the handler panics
(`none`) when the segment list is empty, which `update` prevents.  On a
broadcast-id change the freshly pushed segment's position is reset to 0 and
the tracked stream id updated; only a category change emits a notification,
and its fallible `content(&content)?` call (line 250) runs after the segment
push and can propagate a validation error. -/
def StreamWatcher.on_update (w : StreamWatcher) (env : ClientEnv)
    (stream : Stream) : Option (Step Bool) :=
  let w1 := { w with offline_timestamp := none }
  match w1.segments.getLast? with
  | none => none
  | some lastSeg =>
      let old_game := lastSeg.game
      let vod_change : Bool := stream.id ≠ w1.stream_id
      let game_change : Bool := stream.game_id ≠ old_game.id
      if vod_change || game_change then
        match w1.add_segment env stream with
        | .error e => some { watcher := w1, result := .error (.request e), notifications := [] }
        | .ok (w2, _) =>
            let w3 :=
              if vod_change then
                { w2 with
                  segments := modifyLast (fun s => { s with position := 0 }) w2.segments
                  stream_id := stream.id }
              else w2
            if !game_change then
              some { watcher := w3, result := .ok true, notifications := [] }
            else if w3.is_skipped .update then
              some { watcher := w3, result := .ok true, notifications := [] }
            else if env.contentOk then
              some { watcher := w3, result := .ok true, notifications := ["update"] }
            else
              some { watcher := w3, result := .error .validation, notifications := [] }
      else
        some { watcher := w1, result := .ok false, notifications := [] }

/-! ### Clip title formatting (src/src/watcher.rs lines 360-377)

Rust `String::len` is the byte length and `&title[..25]` slices by bytes,
panicking when byte offset 25 is not a character boundary.  We model titles
as Lean strings and compute UTF-8 byte counts per character. -/

/-- Byte length of a string, as Rust `String::len` computes it. -/
def strByteLen (s : String) : Nat := (s.data.map Char.utf8Size).sum

/-- Takes the first `n` bytes of a character list; `none` when `n` does not
land on a character boundary (the panic of a Rust byte-slice). -/
def bytesTake : List Char → Nat → Option (List Char)
  | _, 0 => some []
  | [], _ + 1 => none
  | c :: cs, n + 1 =>
      if c.utf8Size ≤ n + 1 then
        (bytesTake cs (n + 1 - c.utf8Size)).map (fun r => c :: r)
      else none

/-- Embeds the clip-title truncation in `on_offline`: titles of byte length
at least 25 are byte-sliced to 25 bytes and suffixed; the slice panics
(`none`) off a character boundary. -/
def formatClipTitle (title : String) : Option String :=
  if 25 ≤ strByteLen title then
    (bytesTake title.data 25).map (fun cs => String.mk cs ++ "...")
  else
    some title

/-- Embeds the per-clip line of the Top Clips field (bracket replacement and
numbering retained; the exact surrounding text is irrelevant to the claims). -/
def formatClipLine (i : Nat) (c : Clip) : Option String :=
  (formatClipTitle c.title).map (fun t =>
    toString (i + 1) ++ ". " ++
      (t.replace "]" ")").replace "[" "(" ++ " " ++ c.url ++ " " ++
      toString c.view_count)

/-- Formats every clip line; panics (`none`) as soon as one title does. -/
def formatClipLines (clips : List Clip) : Option (List String) :=
  clips.enum.mapM (fun p => formatClipLine p.1 p.2)

/-- Embeds `StreamWatcher::on_offline` (src/src/watcher.rs lines 257-385).
First offline observation arms the grace deadline (`Ok(false)`, an Updated
outcome); before the deadline nothing happens.  Past it (vod event
enabled), the fallible `content(&content)?` call (line 306) runs first,
while segments and the deadline are still intact; only afterwards (line
352-353) are they cleared, so the later top-clips fetch (line 357-359)
propagates its errors over the already-cleared state, and the clip title
formatting can panic. -/
def StreamWatcher.on_offline (w : StreamWatcher) (env : ClientEnv) :
    Option (Step Bool) :=
  match w.offline_timestamp with
  | none =>
      let deadline := env.now + 60 * w.config.offline_grace_period
      some { watcher := { w with offline_timestamp := some deadline }
             result := .ok false, notifications := [] }
  | some instant =>
      if env.now < instant then
        some { watcher := w, result := .ok false, notifications := [] }
      else if w.is_skipped .vod then
        some { watcher := { w with segments := [], offline_timestamp := none }
               result := .ok true, notifications := [] }
      else
        match w.segments.head? with
        | none => none
        | some _ =>
            if ¬ env.contentOk then
              some { watcher := w, result := .error .validation, notifications := [] }
            else
              let w1 := { w with segments := [], offline_timestamp := none }
              let num := min w.config.top_clips 5
              if 0 < num then
                match env.clipsResult with
                | .error e =>
                    some { watcher := w1, result := .error (.request e), notifications := [] }
                | .ok clips =>
                    match formatClipLines clips with
                    | none => none
                    | some _ =>
                        some { watcher := w1, result := .ok true, notifications := ["vod"] }
              else
                some { watcher := w1, result := .ok true, notifications := ["vod"] }

/-- Embeds `StreamWatcher::update` (src/src/watcher.rs lines 120-147): the
event router.  A `Live` event on an empty segment list goes live; otherwise
it is an update; an `Offline` event matters only with segments present; all
other cases report `Unchanged`. -/
def StreamWatcher.update (w : StreamWatcher) (env : ClientEnv)
    (ev : StreamUpdate) : Option (Step WatcherState) :=
  match ev with
  | .live stream =>
      if w.segments.isEmpty then
        let st := w.on_go_live env stream
        some { watcher := st.watcher
               result := st.result.map (fun _ => WatcherState.updated)
               notifications := st.notifications }
      else
        (w.on_update env stream).map (fun st =>
          { watcher := st.watcher
            result := st.result.map (fun b =>
              if b then WatcherState.updated else WatcherState.unchanged)
            notifications := st.notifications })
  | .offline =>
      if !w.segments.isEmpty then
        (w.on_offline env).map (fun st =>
          { watcher := st.watcher
            result := st.result.map (fun b =>
              if b then WatcherState.ended else WatcherState.updated)
            notifications := st.notifications })
      else
        some { watcher := w, result := .ok .unchanged, notifications := [] }

/-! ## Per-channel actor loop (src/src/main.rs `start_watcher`, lines 142-200)

The actor owns its watcher and drains a queue of events.  Each delivered
event carries the instant of its arrival (the value of `Instant::now()` at
the head of the loop body), the outcomes of the network calls its handling
would make, and the wall-clock duration of that handling.  The source
guards the body with `if next_update.elapsed().is_zero() { continue; }`: an
event arriving at or before `next_update` is discarded without calling
`update`.  An `Updated` outcome persists the watcher (when caching is
enabled) and then sets `next_update = Instant::now() + 60s` (main.rs line
187) — that is, 60 seconds past the *completion* of the update call and the
save, modelled as arrival instant plus handling duration plus 60; `Ended`
breaks the loop; errors are logged and the loop continues. -/

/-- One queued event: its arrival instant, the network-call outcomes of its
handling, the event itself, and the wall-clock duration the `update` await
and the persistence save take for this event (the distance between the
dequeue instant and the `Instant::now()` read at main.rs line 187). -/
structure ActorEvent where
  time : Nat
  env : ClientEnv
  event : StreamUpdate
  handleDuration : Nat

/-- The actor's loop state: the watcher, the cooldown deadline, the events
passed to `update` in order, and the snapshots persisted to the store. -/
structure ActorState where
  watcher : StreamWatcher
  nextUpdate : Nat
  processed : List StreamUpdate
  saves : List StreamWatcher

/-- The receive loop of `start_watcher`.  A `none` from `update` is a panic:
the task dies and no further event is processed. -/
def runActorGo (cacheEnabled : Bool) : List ActorEvent → ActorState → ActorState
  | [], st => st
  | e :: rest, st =>
      if e.time ≤ st.nextUpdate then
        runActorGo cacheEnabled rest st
      else
        match st.watcher.update e.env e.event with
        | none => { st with processed := st.processed ++ [e.event] }
        | some step =>
            let st1 := { st with
              watcher := step.watcher
              processed := st.processed ++ [e.event] }
            match step.result with
            | .ok .ended => st1
            | .error _ => runActorGo cacheEnabled rest st1
            | .ok .updated =>
                let st2 :=
                  if cacheEnabled then { st1 with saves := st1.saves ++ [step.watcher] }
                  else st1
                runActorGo cacheEnabled rest
                  { st2 with nextUpdate := e.time + e.handleDuration + 60 }
            | .ok .unchanged => runActorGo cacheEnabled rest st1

/-- Spawns the actor at `spawnTime` (initializing `next_update` to it) and
runs it over the delivered events. -/
def runActor (cacheEnabled : Bool) (w : StreamWatcher) (spawnTime : Nat)
    (events : List ActorEvent) : ActorState :=
  runActorGo cacheEnabled events
    { watcher := w, nextUpdate := spawnTime, processed := [], saves := [] }

/-! ## Retrying request loop (src/src/twitch/oauth.rs `make_request`,
lines 118-203)

Each attempt's outcome is either a transport error or an HTTP response with
a status, a body, and the raw bytes of the Retry-After header when present.
The loop makes at most 10 attempts; the exponential backoff starts at 1s,
doubles after every backoff sleep, and is clamped into [1, 16]. -/

/-- Transport-level failure classification of reqwest errors, per the match
arms of the source: connect, timeout and request errors retry, anything else
is fatal. -/
inductive TransportError where
  | connect
  | timedOut
  | request
  | other
deriving DecidableEq

/-- One HTTP response: status code, body, and the Retry-After header's raw
bytes when the header is present. -/
structure HttpResponse where
  status : Nat
  body : String
  retryAfter : Option (List Nat)
deriving DecidableEq

/-- The outcome of one attempt. -/
abbrev Attempt := Except TransportError HttpResponse

/-- The visible-ASCII test of http's `HeaderValue::to_str`: every byte must
be horizontal tab or in [32, 127). -/
def visibleAscii (b : Nat) : Bool := b = 9 || (32 ≤ b && b < 127)

/-- Embeds `HeaderValue::to_str`: yields the header text only when every
byte is visible ASCII. -/
def headerToStr (bytes : List Nat) : Option String :=
  if bytes.all visibleAscii then
    some (String.mk (bytes.map Char.ofNat))
  else
    none

/-- Embeds Rust `u64::from_str`: an optional leading plus sign, then at
least one digit, value below 2^64. -/
def parseU64 (s : String) : Option Nat :=
  let cs := match s.data with
    | '+' :: rest => rest
    | cs => cs
  if cs.isEmpty then none
  else if cs.all Char.isDigit then
    let n := cs.foldl (fun a c => a * 10 + (c.toNat - 48)) 0
    if n < 2 ^ 64 then some n else none
  else none

/-- The backoff update `Ord::clamp(backoff * 2, 1, 16)`. -/
def nextBackoff (backoff : Nat) : Nat := min 16 (max 1 (backoff * 2))

/-- The body of `make_request`, with the remaining attempts as fuel.  The
attempt outcomes are supplied as a function of the attempt index `i`.
Returns the final result together with the list of sleep durations, in
order.  Classification mirrors the source's guards: 2xx succeeds through
the handler, 5xx backs off, 429 sleeps per Retry-After (propagating an
Unexpected error when `to_str` fails, defaulting to 10 seconds when the
header is missing or fails to parse, never touching the backoff value),
any other status fails with `Http`, and connect/timeout/request transport
errors back off while other transport errors fail with `Unexpected`. -/
def makeRequestGo (handler : String → Except RequestError α)
    (resp : Nat → Attempt) : Nat → Nat → Nat → Except RequestError α × List Nat
  | 0, _, _ => (.error .timeout, [])
  | fuel + 1, i, backoff =>
      match resp i with
      | .ok r =>
          if 200 ≤ r.status ∧ r.status ≤ 299 then
            (handler r.body, [])
          else if 500 ≤ r.status ∧ r.status ≤ 599 then
            let out := makeRequestGo handler resp fuel (i + 1) (nextBackoff backoff)
            (out.1, backoff :: out.2)
          else if r.status = 429 then
            match r.retryAfter with
            | some bytes =>
                match headerToStr bytes with
                | none => (.error .unexpected, [])
                | some s =>
                    match parseU64 s with
                    | some retry_after =>
                        let out := makeRequestGo handler resp fuel (i + 1) backoff
                        (out.1, retry_after :: out.2)
                    | none =>
                        let out := makeRequestGo handler resp fuel (i + 1) backoff
                        (out.1, 10 :: out.2)
            | none =>
                let out := makeRequestGo handler resp fuel (i + 1) backoff
                (out.1, 10 :: out.2)
          else
            (.error (.http r.status), [])
      | .error .connect =>
          let out := makeRequestGo handler resp fuel (i + 1) (nextBackoff backoff)
          (out.1, backoff :: out.2)
      | .error .timedOut =>
          let out := makeRequestGo handler resp fuel (i + 1) (nextBackoff backoff)
          (out.1, backoff :: out.2)
      | .error .request =>
          let out := makeRequestGo handler resp fuel (i + 1) (nextBackoff backoff)
          (out.1, backoff :: out.2)
      | .error .other => (.error .unexpected, [])

/-- Entry point of the loop: 10 attempts, backoff starting at 1 second. -/
def makeRequest (handler : String → Except RequestError α)
    (resp : Nat → Attempt) : Except RequestError α × List Nat :=
  makeRequestGo handler resp 10 0 1

/-- An attempt outcome on which the loop retries instead of returning:
connect/timeout/request transport errors, 5xx statuses, and 429 statuses
whose Retry-After header, when present, survives `to_str` (is visible
ASCII) — a 429 whose header bytes are not visible ASCII aborts the loop
instead. -/
def retryableAttempt : Attempt → Prop
  | .error .connect => True
  | .error .timedOut => True
  | .error .request => True
  | .error .other => False
  | .ok r =>
      (500 ≤ r.status ∧ r.status ≤ 599) ∨
      (r.status = 429 ∧ ∀ bytes, r.retryAfter = some bytes → (headerToStr bytes).isSome = true)

/-! ## Category cache (src/twitch-api/src/client.rs `get_game_by_id`,
lines 55-85; equivalently src/src/twitch/client.rs lines 61-92)

The lru crate's cache is modelled as a recency list, most recently used
first, with capacity 100: `get` promotes a hit to the front, `push` inserts
or updates at the front and drops the least-recently-used entry on
overflow. -/

/-- The capacity passed to `LruCache::new`. -/
def lruCapacity : Nat := 100

/-- The games cache: association list in recency order, most recent first. -/
structure LruCache where
  entries : List (String × Game)
deriving DecidableEq

/-- Removes the entry for a key, if present. -/
def lruRemoveKey (k : String) (l : List (String × Game)) : List (String × Game) :=
  l.filter (fun p => p.1 ≠ k)

/-- Embeds `LruCache::get`: a hit returns the value and moves the entry to
the front; a miss leaves the cache untouched. -/
def LruCache.get (c : LruCache) (k : String) : Option Game × LruCache :=
  match c.entries.find? (fun p => p.1 = k) with
  | some p => (some p.2, ⟨(k, p.2) :: lruRemoveKey k c.entries⟩)
  | none => (none, c)

/-- Embeds `LruCache::push`: inserts (or updates) the key at the front and
evicts the least-recently-used entry when the capacity is exceeded. -/
def LruCache.push (c : LruCache) (k : String) (g : Game) : LruCache :=
  ⟨List.take lruCapacity ((k, g) :: lruRemoveKey k c.entries)⟩

/-- Embeds `TwitchClient::get_game_by_id`: the empty id short-circuits to
the empty sentinel without touching the cache or the network; otherwise a
cache hit answers locally and a miss issues one request whose successful
result is pushed into the cache.  Returns the result, the new cache, and
the number of upstream requests issued. -/
def getGameById (c : LruCache) (id : String)
    (fetch : Except RequestError Game) :
    Except RequestError Game × LruCache × Nat :=
  if id = "" then (.ok Game.empty, c, 0)
  else
    match c.get id with
    | (some g, c1) => (.ok g, c1, 0)
    | (none, c1) =>
        match fetch with
        | .ok g => (.ok g, c1.push id g, 1)
        | .error e => (.error e, c1, 1)

/-- Folds a sequence of category lookups (each fetch succeeding with
`games id`) through the cache, starting from a given cache. -/
def foldGetGames (games : String → Game) (c : LruCache) (ids : List String) :
    LruCache :=
  ids.foldl (fun acc id => (getGameById acc id (.ok (games id))).2.1) c

/-! ## Persistence round trip (src/database-api/src/file.rs and the serde
derives on `StreamWatcher` / `StreamSegment` / `Game`)

`FileDatabase::save` serializes the document with serde_json and atomically
renames it into place; `read` parses it back.  We model the serde layer at
the JSON-tree level: `encodeWatcher` is the projection the derived
`Serialize` produces (the `config` field is skipped, the `offline_timestamp`
field is omitted when `None`), and `decodeWatcher` is the derived
`Deserialize` (fields located by name, missing `offline_timestamp`
defaulting to `None`, the skipped `config` replaced by its default). -/

/-- JSON trees, as produced by serde_json for the watcher's document. -/
inductive Json where
  | str (s : String)
  | num (n : Nat)
  | arr (elems : List Json)
  | obj (fields : List (String × Json))

/-- Field lookup in a JSON object, first match by name. -/
def Json.getField (j : Json) (k : String) : Option Json :=
  match j with
  | .obj fs => (fs.find? (fun p => p.1 = k)).map (fun p => p.2)
  | _ => none

/-- Reads a JSON string. -/
def Json.asStr : Json → Option String
  | .str s => some s
  | _ => none

/-- Reads a JSON number. -/
def Json.asNum : Json → Option Nat
  | .num n => some n
  | _ => none

/-- Reads a JSON array. -/
def Json.asArr : Json → Option (List Json)
  | .arr xs => some xs
  | _ => none

/-- Serializes a `Game` (derived `Serialize`). -/
def encodeGame (g : Game) : Json :=
  .obj [("id", .str g.id), ("name", .str g.name)]

/-- Deserializes a `Game` (derived `Deserialize`). -/
def decodeGame (j : Json) : Option Game := do
  let id ← (← j.getField "id").asStr
  let name ← (← j.getField "name").asStr
  pure { id := id, name := name }

/-- Serializes a `StreamSegment`. -/
def encodeSegment (s : StreamSegment) : Json :=
  .obj [("game", encodeGame s.game), ("position", .num s.position),
    ("video_id", .str s.video_id)]

/-- Deserializes a `StreamSegment`. -/
def decodeSegment (j : Json) : Option StreamSegment := do
  let game ← decodeGame (← j.getField "game")
  let position ← (← j.getField "position").asNum
  let video_id ← (← j.getField "video_id").asStr
  pure { game := game, position := position, video_id := video_id }

/-- Serializes a `StreamWatcher`: the `config` field is skipped and the
`offline_timestamp` field is omitted when `None`
(`#[serde(default, skip_serializing_if = "Option::is_none")]`). -/
def encodeWatcher (w : StreamWatcher) : Json :=
  .obj ([("user_name", .str w.user_name), ("user_id", .str w.user_id),
    ("stream_id", .str w.stream_id),
    ("segments", .arr (w.segments.map encodeSegment)),
    ("start_timestamp", .num w.start_timestamp)] ++
    (match w.offline_timestamp with
     | some t => [("offline_timestamp", .num t)]
     | none => []))

/-- Deserializes a `StreamWatcher`: a missing `offline_timestamp` defaults
to `None` and the skipped `config` field takes its `Default` value. -/
def decodeWatcher (j : Json) : Option StreamWatcher := do
  let user_name ← (← j.getField "user_name").asStr
  let user_id ← (← j.getField "user_id").asStr
  let stream_id ← (← j.getField "stream_id").asStr
  let segs ← (← j.getField "segments").asArr
  let segments ← segs.mapM decodeSegment
  let start_timestamp ← (← j.getField "start_timestamp").asNum
  let offline_timestamp ←
    match j.getField "offline_timestamp" with
    | none => some none
    | some v => (v.asNum).map some
  pure { user_name := user_name
         user_id := user_id
         stream_id := stream_id
         segments := segments
         start_timestamp := start_timestamp
         offline_timestamp := offline_timestamp
         config := Config.defaultConfig }

/-! ## Test fixtures

Concrete values used by the closed counterexample and witness theorems
below.  They mirror the §8 scenario of the specification: channel alice,
category 512710 "Just Chatting", broadcast 999. -/

/-- A configuration with every event type enabled, a 2-minute grace period
and 5 top clips. -/
def fixtureConfig : Config :=
  { enabled_events := [.live, .update, .vod]
    offline_grace_period := 2
    top_clips := 5 }

/-- The first segment of the fixture session. -/
def fixtureSegment : StreamSegment :=
  { game := { id := "512710", name := "Just Chatting" }
    position := 0
    video_id := "v1" }

/-- A watcher in its offline grace period: one segment, deadline 5000. -/
def fixtureWatcher : StreamWatcher :=
  { user_name := "alice"
    user_id := "u1"
    stream_id := "999"
    segments := [fixtureSegment]
    start_timestamp := 1000
    offline_timestamp := some 5000
    config := fixtureConfig }

/-- A snapshot with the same broadcast id but a changed category. -/
def fixtureStream : Stream :=
  { id := "999"
    game_id := "509658"
    title := "t"
    user_id := "u1"
    user_login := "alice"
    user_name := "Alice"
    started_at := 1000 }

/-- A snapshot with broadcast id and category both unchanged. -/
def fixtureStreamSame : Stream := { fixtureStream with game_id := "512710" }

/-- A snapshot with a new broadcast id (and, versus the fixture watcher's
last segment, also a new category). -/
def fixtureStreamNewVod : Stream := { fixtureStream with id := "1000" }

/-- Call outcomes where the category lookup fails with a fatal Timeout. -/
def envTimeout : ClientEnv :=
  { now := 1077
    gameResult := .error .timeout
    videoOfStream := .ok { id := "v2", url := "", title := "", duration := 0 }
    videoById := .ok { id := "v2", url := "", title := "", duration := 0 }
    videosResult := .ok []
    clipsResult := .ok []
    contentOk := true }

/-- Call outcomes where every lookup succeeds. -/
def envGameOk : ClientEnv :=
  { envTimeout with gameResult := .ok { id := "509658", name := "Just Dancing" } }

/-- Call outcomes where every lookup succeeds but the rendered notification
content fails twilight's message validation. -/
def envContentBad : ClientEnv := { envGameOk with contentOk := false }

/-- Call outcomes where the top-clips fetch fails with a fatal Timeout. -/
def envClipsErr : ClientEnv := { envGameOk with clipsResult := .error .timeout }

/-- A clip title of 24 single-byte characters followed by one two-byte
character: byte length 26, and byte offset 25 falls inside the last
character. -/
def badClipTitle : String := String.mk (List.replicate 24 'a') ++ "é"

/-- A watcher whose grace deadline (900) has already passed at now = 1077. -/
def fixtureWatcherPastDeadline : StreamWatcher :=
  { fixtureWatcher with offline_timestamp := some 900 }

/-- Call outcomes whose top-clips fetch returns the panic-inducing clip. -/
def envBadClip : ClientEnv :=
  { envGameOk with clipsResult := .ok [{ title := badClipTitle, url := "u", view_count := 3 }] }

/-- Repeatedly delivers the same Live snapshot (with identical call
outcomes) to a watcher, collecting all emitted notifications: the harness
for the idempotence property. -/
def iterLive (env : ClientEnv) (s : Stream) : Nat → StreamWatcher → StreamWatcher × List String
  | 0, w => (w, [])
  | n + 1, w =>
      match w.update env (.live s) with
      | none => (w, [])
      | some st =>
          let out := iterLive env s n st.watcher
          (out.1, st.notifications ++ out.2)

/-- The 101 pairwise-distinct category ids used by the cache witnesses. -/
def fixtureIds : List String := (List.range 101).map (fun n => toString n)

/-- A fetch answer for every category id. -/
def fixtureGames (id : String) : Game := { id := id, name := id }

/-! ## Helper lemmas -/

/-- A fatal game-lookup error propagates out of `add_segment` unchanged. -/
theorem add_segment_fatal (w : StreamWatcher) (env : ClientEnv) (s : Stream)
    (e : RequestError) (he : env.gameResult = .error e) (hf : e.fatal = true) :
    w.add_segment env s = .error e := by
  unfold StreamWatcher.add_segment
  rw [he]
  cases e <;> simp_all [RequestError.fatal]

/-- Mutating the last element of a list that was just extended on the right
touches exactly the new element. -/
theorem modifyLast_append (f : α → α) (l : List α) (a : α) :
    modifyLast f (l ++ [a]) = l ++ [f a] := by
  induction l with
  | nil => rfl
  | cons x xs ih =>
      cases xs with
      | nil => rfl
      | cons y ys =>
          simp only [List.cons_append] at ih ⊢
          rw [show modifyLast f (x :: y :: (ys ++ [a])) =
              x :: modifyLast f (y :: (ys ++ [a])) from rfl, ih]

/-- A successful game lookup makes `add_segment` push exactly the segment
built by `StreamSegment.ofStream`. -/
theorem add_segment_ok (w : StreamWatcher) (env : ClientEnv) (s : Stream)
    (g : Game) (hgok : env.gameResult = .ok g) :
    w.add_segment env s =
      .ok ({ w with segments := w.segments ++ [StreamSegment.ofStream env s g] },
        StreamSegment.ofStream env s g) := by
  unfold StreamWatcher.add_segment
  rw [hgok]

/-- A Live event whose broadcast id and category both match the tracked
state is a no-op apart from clearing the offline deadline: `update` reports
Unchanged, appends nothing and notifies nobody. -/
theorem update_matching_live (w : StreamWatcher) (env : ClientEnv) (s : Stream)
    (lastSeg : StreamSegment) (hlast : w.segments.getLast? = some lastSeg)
    (hvod : s.id = w.stream_id) (hgame : s.game_id = lastSeg.game.id) :
    w.update env (.live s) =
      some { watcher := { w with offline_timestamp := none }
             result := .ok .unchanged
             notifications := [] } := by
  have hne : w.segments.isEmpty = false := by
    cases hw : w.segments with
    | nil => rw [hw] at hlast; simp [List.getLast?] at hlast
    | cons a l => simp
  simp [StreamWatcher.update, StreamWatcher.on_update, hne, hlast, hvod, hgame, Except.map]

/-- A category-only change (broadcast id unchanged) appends the segment
built by `StreamSegment.ofStream` with its elapsed position intact. -/
theorem on_update_game_change_only (w : StreamWatcher) (env : ClientEnv) (s : Stream)
    (g : Game) (lastSeg : StreamSegment)
    (hlast : w.segments.getLast? = some lastSeg)
    (hgok : env.gameResult = .ok g) (hcont : env.contentOk = true)
    (hgame : s.game_id ≠ lastSeg.game.id) (hvod : s.id = w.stream_id) :
    ∃ notifs, w.on_update env s =
      some { watcher := { w with
               offline_timestamp := none
               segments := w.segments ++ [StreamSegment.ofStream env s g] }
             result := .ok true
             notifications := notifs } := by
  have hadd := add_segment_ok { w with offline_timestamp := none } env s g hgok
  by_cases hsk : EventName.update ∈ w.config.enabled_events
  · exact ⟨["update"], by
      simp [StreamWatcher.on_update, hlast, hadd, hgame, hvod, hcont,
        StreamWatcher.is_skipped, hsk]⟩
  · exact ⟨[], by
      simp [StreamWatcher.on_update, hlast, hadd, hgame, hvod, hcont,
        StreamWatcher.is_skipped, hsk]⟩

/-- A broadcast-id change (with or without a category change) appends the
new segment with its position forced to 0 and retargets the tracked
broadcast id. -/
theorem on_update_vod_change (w : StreamWatcher) (env : ClientEnv) (s : Stream)
    (g : Game) (lastSeg : StreamSegment)
    (hlast : w.segments.getLast? = some lastSeg)
    (hgok : env.gameResult = .ok g) (hcont : env.contentOk = true)
    (hvod : s.id ≠ w.stream_id) :
    ∃ notifs, w.on_update env s =
      some { watcher := { w with
               offline_timestamp := none
               segments := w.segments ++ [{ StreamSegment.ofStream env s g with position := 0 }]
               stream_id := s.id }
             result := .ok true
             notifications := notifs } := by
  have hadd := add_segment_ok { w with offline_timestamp := none } env s g hgok
  by_cases hgame : s.game_id = lastSeg.game.id
  · exact ⟨[], by
      simp [StreamWatcher.on_update, hlast, hadd, hgame, hvod, modifyLast_append]⟩
  · by_cases hsk : EventName.update ∈ w.config.enabled_events
    · exact ⟨["update"], by
        simp [StreamWatcher.on_update, hlast, hadd, hgame, hvod, hcont, modifyLast_append,
          StreamWatcher.is_skipped, hsk]⟩
    · exact ⟨[], by
        simp [StreamWatcher.on_update, hlast, hadd, hgame, hvod, hcont, modifyLast_append,
          StreamWatcher.is_skipped, hsk]⟩

/-! ## Claim theorems -/

/-- Claim C1, counterexample: with the fixture watcher in its grace period,
a Live event whose category changed and whose category lookup fails with the
fatal Timeout error makes `update` return that error — yet the in-memory
state after the failed call differs from the state before it (the offline
deadline was cleared); and an Offline event past the grace deadline whose
top-clips fetch fails returns that error with the segment list already
cleared.  Both contradict the claim that no field is modified on the error
path. -/
theorem c1_counterexample :
    (fixtureWatcher.update envTimeout (.live fixtureStream) =
      some { watcher := { fixtureWatcher with offline_timestamp := none }
             result := .error (.request .timeout)
             notifications := [] }) ∧
    ({ fixtureWatcher with offline_timestamp := none }) ≠ fixtureWatcher ∧
    (fixtureWatcherPastDeadline.update envClipsErr .offline =
      some { watcher := { fixtureWatcherPastDeadline with
               segments := []
               offline_timestamp := none }
             result := .error (.request .timeout)
             notifications := [] }) ∧
    fixtureWatcherPastDeadline.segments ≠ [] := by
  exact ⟨rfl, by decide, rfl, by decide⟩

/-- Claim C1, amended: when handling an event returns a fatal
(non-NotFound, non-Deserialize) error the event is dropped, but the state
may already have been partially mutated before the failing call, as
follows.  Update path: a fatal category-lookup error leaves everything but
the cleared offline deadline unchanged, while a message-content validation
error (category changed, notification enabled) propagates with the new
Segment already appended.  Go-live path: a fatal category-lookup error
propagates after the session start, user id and broadcast id were
overwritten and the deadline cleared; a content-validation error
additionally leaves the first Segment pushed.  Offline path past the grace
deadline (vod enabled): a content-validation error propagates with the
state entirely unchanged, but a top-clips fetch error propagates only after
the segment list and the deadline were already cleared. -/
theorem c1_fatal_error_partial_mutation :
    (∀ (w : StreamWatcher) (env : ClientEnv) (s : Stream)
        (lastSeg : StreamSegment) (e : RequestError),
      w.segments.getLast? = some lastSeg →
      env.gameResult = .error e → e.fatal = true →
      (s.game_id ≠ lastSeg.game.id ∨ s.id ≠ w.stream_id) →
      w.update env (.live s) =
        some { watcher := { w with offline_timestamp := none }
               result := .error (.request e)
               notifications := [] }) ∧
    (∀ (w : StreamWatcher) (env : ClientEnv) (s : Stream)
        (lastSeg : StreamSegment) (g : Game),
      w.segments.getLast? = some lastSeg →
      env.gameResult = .ok g → env.contentOk = false →
      s.game_id ≠ lastSeg.game.id → s.id = w.stream_id →
      EventName.update ∈ w.config.enabled_events →
      w.update env (.live s) =
        some { watcher := { w with
                 offline_timestamp := none
                 segments := w.segments ++ [StreamSegment.ofStream env s g] }
               result := .error .validation
               notifications := [] }) ∧
    (∀ (w : StreamWatcher) (env : ClientEnv) (s : Stream) (e : RequestError),
      w.segments = [] → env.gameResult = .error e → e.fatal = true →
      w.update env (.live s) =
        some { watcher := { w with
                 offline_timestamp := none
                 start_timestamp := s.started_at
                 user_id := s.user_id
                 stream_id := s.id }
               result := .error (.request e)
               notifications := [] }) ∧
    (∀ (w : StreamWatcher) (env : ClientEnv) (s : Stream) (g : Game),
      w.segments = [] → env.gameResult = .ok g → env.contentOk = false →
      EventName.live ∈ w.config.enabled_events →
      w.update env (.live s) =
        some { watcher := { w with
                 offline_timestamp := none
                 start_timestamp := s.started_at
                 user_id := s.user_id
                 stream_id := s.id
                 segments := w.segments ++ [{ StreamSegment.ofStream env s g with position := 0 }] }
               result := .error .validation
               notifications := [] }) ∧
    (∀ (w : StreamWatcher) (env : ClientEnv) (d : Nat),
      w.offline_timestamp = some d → d ≤ env.now →
      w.segments.isEmpty = false →
      EventName.vod ∈ w.config.enabled_events → env.contentOk = false →
      w.update env .offline =
        some { watcher := w, result := .error .validation, notifications := [] }) ∧
    (∀ (w : StreamWatcher) (env : ClientEnv) (d : Nat) (e : RequestError),
      w.offline_timestamp = some d → d ≤ env.now →
      w.segments.isEmpty = false →
      EventName.vod ∈ w.config.enabled_events → env.contentOk = true →
      0 < min w.config.top_clips 5 → env.clipsResult = .error e →
      w.update env .offline =
        some { watcher := { w with segments := [], offline_timestamp := none }
               result := .error (.request e)
               notifications := [] }) := by
  refine ⟨?_, ?_, ?_, ?_, ?_, ?_⟩
  · intro w env s lastSeg e hlast he hf hchange
    have hne : w.segments.isEmpty = false := by
      cases hw : w.segments with
      | nil => rw [hw] at hlast; simp [List.getLast?] at hlast
      | cons a l => simp
    have hadd : StreamWatcher.add_segment { w with offline_timestamp := none } env s
        = .error e := add_segment_fatal _ env s e he hf
    rcases hchange with hg | hv
    · simp [StreamWatcher.update, StreamWatcher.on_update, hne, hlast, hadd, hg,
        Except.map]
    · simp [StreamWatcher.update, StreamWatcher.on_update, hne, hlast, hadd, hv,
        Except.map]
  · intro w env s lastSeg g hlast hgok hcont hgame hvod hsk
    have hne : w.segments.isEmpty = false := by
      cases hw : w.segments with
      | nil => rw [hw] at hlast; simp [List.getLast?] at hlast
      | cons a l => simp
    have hadd := add_segment_ok { w with offline_timestamp := none } env s g hgok
    simp [StreamWatcher.update, StreamWatcher.on_update, hne, hlast, hadd, hgame, hvod,
      StreamWatcher.is_skipped, hsk, hcont, Except.map]
  · intro w env s e hempty he hf
    have hemptyb : w.segments.isEmpty = true := by simp [hempty]
    have hadd : StreamWatcher.add_segment
        { w with
          offline_timestamp := none
          start_timestamp := s.started_at
          user_id := s.user_id
          stream_id := s.id } env s = .error e :=
      add_segment_fatal _ env s e he hf
    simp [StreamWatcher.update, hemptyb, StreamWatcher.on_go_live, hadd, Except.map]
  · intro w env s g hempty hgok hcont hsk
    have hemptyb : w.segments.isEmpty = true := by simp [hempty]
    have hadd := add_segment_ok
      { w with
        offline_timestamp := none
        start_timestamp := s.started_at
        user_id := s.user_id
        stream_id := s.id } env s g hgok
    simp [StreamWatcher.update, hemptyb, StreamWatcher.on_go_live, hadd,
      StreamWatcher.is_skipped, hsk, hcont, modifyLast_append, Except.map]
  · intro w env d hoff hnow hne hsk hcont
    have hnow2 : ¬ env.now < d := Nat.not_lt.mpr hnow
    have hex : ∃ s0, w.segments.head? = some s0 := by
      cases hw : w.segments with
      | nil => rw [hw] at hne; simp at hne
      | cons a l => exact ⟨a, rfl⟩
    obtain ⟨s0, hhead⟩ := hex
    simp [StreamWatcher.update, hne, StreamWatcher.on_offline, hoff, hnow2,
      StreamWatcher.is_skipped, hsk, hhead, hcont, Except.map]
  · intro w env d e hoff hnow hne hsk hcont htop hclips
    have hnow2 : ¬ env.now < d := Nat.not_lt.mpr hnow
    have hex : ∃ s0, w.segments.head? = some s0 := by
      cases hw : w.segments with
      | nil => rw [hw] at hne; simp at hne
      | cons a l => exact ⟨a, rfl⟩
    obtain ⟨s0, hhead⟩ := hex
    simp [StreamWatcher.update, hne, StreamWatcher.on_offline, hoff, hnow2,
      StreamWatcher.is_skipped, hsk, hhead, hcont, htop, hclips, Except.map]

/-- Claim C1, witness: the amended theorem applied to the fixtures, for all
six error paths (fatal lookup and content validation on the update and
go-live paths; content validation and clips fetch on the offline path). -/
theorem c1_fatal_error_partial_mutation_witness :
    (fixtureWatcher.update envTimeout (.live fixtureStream) =
      some { watcher := { fixtureWatcher with offline_timestamp := none }
             result := .error (.request .timeout)
             notifications := [] }) ∧
    (fixtureWatcher.update envContentBad (.live fixtureStream) =
      some { watcher := { fixtureWatcher with
               offline_timestamp := none
               segments := fixtureWatcher.segments ++
                 [StreamSegment.ofStream envContentBad fixtureStream
                   { id := "509658", name := "Just Dancing" }] }
             result := .error .validation
             notifications := [] }) ∧
    (StreamWatcher.update { fixtureWatcher with segments := [] } envTimeout
        (.live fixtureStream) =
      some { watcher := { fixtureWatcher with
               segments := []
               offline_timestamp := none
               start_timestamp := 1000
               user_id := "u1"
               stream_id := "999" }
             result := .error (.request .timeout)
             notifications := [] }) ∧
    (StreamWatcher.update { fixtureWatcher with segments := [] } envContentBad
        (.live fixtureStream) =
      some { watcher := { fixtureWatcher with
               offline_timestamp := none
               start_timestamp := 1000
               user_id := "u1"
               stream_id := "999"
               segments := [] ++ [{ StreamSegment.ofStream envContentBad fixtureStream
                 { id := "509658", name := "Just Dancing" } with position := 0 }] }
             result := .error .validation
             notifications := [] }) ∧
    (fixtureWatcherPastDeadline.update envContentBad .offline =
      some { watcher := fixtureWatcherPastDeadline
             result := .error .validation
             notifications := [] }) ∧
    (fixtureWatcherPastDeadline.update envClipsErr .offline =
      some { watcher := { fixtureWatcherPastDeadline with
               segments := []
               offline_timestamp := none }
             result := .error (.request .timeout)
             notifications := [] }) :=
  ⟨(c1_fatal_error_partial_mutation.1 fixtureWatcher envTimeout fixtureStream
      fixtureSegment .timeout rfl rfl rfl (Or.inl (by decide))),
   (c1_fatal_error_partial_mutation.2.1 fixtureWatcher envContentBad fixtureStream
      fixtureSegment { id := "509658", name := "Just Dancing" } rfl rfl rfl
      (by decide) rfl (by decide)),
   (c1_fatal_error_partial_mutation.2.2.1 { fixtureWatcher with segments := [] }
      envTimeout fixtureStream .timeout rfl rfl rfl),
   (c1_fatal_error_partial_mutation.2.2.2.1 { fixtureWatcher with segments := [] }
      envContentBad fixtureStream { id := "509658", name := "Just Dancing" }
      rfl rfl rfl (by decide)),
   (c1_fatal_error_partial_mutation.2.2.2.2.1 fixtureWatcherPastDeadline
      envContentBad 900 rfl (by decide) rfl (by decide) rfl),
   (c1_fatal_error_partial_mutation.2.2.2.2.2 fixtureWatcherPastDeadline
      envClipsErr 900 .timeout rfl (by decide) rfl (by decide) rfl (by decide) rfl)⟩

/-- Claim C2, counterexample: the actor's 60-second cooldown after an
Updated outcome silently drops events.  The first event (a category change
at t = 100) yields Updated; the second event (Observed-Offline at t = 110)
arrives inside the cooldown and is never passed to `update`, contradicting
the claim that no event is skipped. -/
theorem c2_counterexample :
    (runActor true fixtureWatcher 0
        [{ time := 100, env := envGameOk, event := .live fixtureStream, handleDuration := 0 },
         { time := 110, env := envGameOk, event := .offline, handleDuration := 0 }]).processed =
      [.live fixtureStream] ∧
    [StreamUpdate.live fixtureStream] ≠
      [StreamUpdate.live fixtureStream, .offline] := by
  exact ⟨rfl, by decide⟩

/-- Claim C3, counterexample: a Live event where the broadcast id and the
category change at the same time (77 seconds into the session) appends its
new Segment at offset 0, not at offset now − session start = 77, refuting
the claim that a simultaneous broadcast-id change still yields the elapsed
offset. -/
theorem c3_counterexample :
    fixtureWatcher.update envGameOk (.live fixtureStreamNewVod) =
      some { watcher := { fixtureWatcher with
               offline_timestamp := none
               stream_id := "1000"
               segments := [fixtureSegment,
                 { game := { id := "509658", name := "Just Dancing" }
                   position := 0
                   video_id := "v2" }] }
             result := .ok .updated
             notifications := ["update"] } ∧
    envGameOk.now - fixtureStreamNewVod.started_at = 77 := by
  exact ⟨rfl, rfl⟩

/-- Claim C4: the clip-title truncation in `on_offline` byte-slices titles
at byte offset 25; a title whose 25th byte boundary falls inside a
multi-byte character makes the slice panic, so handling a single offline
event with such a clip crashes the handler, contradicting the never-panics
requirement (the crate even enables the clippy string_slice warning against
exactly this). -/
theorem c4_clip_title_byte_slice_panics :
    formatClipTitle badClipTitle = none ∧
    fixtureWatcherPastDeadline.update envBadClip .offline = none := by
  exact ⟨rfl, rfl⟩

/-- A run of attempts that are all retryable — every 429 among them carrying
either no Retry-After header or one whose bytes survive `to_str` — exhausts
the remaining fuel and returns a single Timeout. -/
theorem makeRequestGo_retryable_timeout (handler : String → Except RequestError α)
    (resp : Nat → Attempt) :
    ∀ (fuel i backoff : Nat),
      (∀ j, i ≤ j → j < i + fuel → retryableAttempt (resp j)) →
      (makeRequestGo handler resp fuel i backoff).1 = .error .timeout := by
  intro fuel
  induction fuel with
  | zero => intro i backoff _; rfl
  | succ fuel ih =>
      intro i backoff h
      have h0 : retryableAttempt (resp i) := h i (Nat.le_refl i) (by omega)
      have hrest : ∀ j, i + 1 ≤ j → j < (i + 1) + fuel → retryableAttempt (resp j) :=
        fun j h1 h2 => h j (by omega) (by omega)
      cases hr : resp i with
      | error te =>
          cases te with
          | connect =>
              simp only [makeRequestGo, hr]
              exact ih (i + 1) (nextBackoff backoff) hrest
          | timedOut =>
              simp only [makeRequestGo, hr]
              exact ih (i + 1) (nextBackoff backoff) hrest
          | request =>
              simp only [makeRequestGo, hr]
              exact ih (i + 1) (nextBackoff backoff) hrest
          | other => rw [hr] at h0; simp [retryableAttempt] at h0
      | ok r =>
          rw [hr] at h0
          simp only [retryableAttempt] at h0
          rcases h0 with ⟨h5a, h5b⟩ | ⟨h429, hhdr⟩
          · have hs : ¬ (200 ≤ r.status ∧ r.status ≤ 299) := by omega
            simp only [makeRequestGo, hr]
            rw [if_neg hs, if_pos ⟨h5a, h5b⟩]
            exact ih (i + 1) (nextBackoff backoff) hrest
          · have hs1 : ¬ (200 ≤ r.status ∧ r.status ≤ 299) := by omega
            have hs2 : ¬ (500 ≤ r.status ∧ r.status ≤ 599) := by omega
            simp only [makeRequestGo, hr]
            rw [if_neg hs1, if_neg hs2, if_pos h429]
            cases hb : r.retryAfter with
            | none => exact ih (i + 1) backoff hrest
            | some bytes =>
                obtain ⟨str, hstr⟩ := Option.isSome_iff_exists.mp (hhdr bytes hb)
                dsimp only
                rw [hstr]
                dsimp only
                cases hp : parseU64 str with
                | none => exact ih (i + 1) backoff hrest
                | some n => exact ih (i + 1) backoff hrest

/-- Claim C6, counterexample: nine 500 responses followed by a 429 whose
Retry-After header holds the non-visible-ASCII byte 200 — ten attempts that
all fail with the spec's retry triggers — return a single Unexpected error
via the header's `to_str` failure, not the claimed Timeout. -/
theorem c6_counterexample :
    makeRequest (fun b => Except.ok b)
        (fun i => if i < 9 then .ok { status := 500, body := "", retryAfter := none }
                  else .ok { status := 429, body := "", retryAfter := some [200] }) =
      ((.error .unexpected : Except RequestError String),
        [1, 2, 4, 8, 16, 16, 16, 16, 16]) ∧
    (Except.error .unexpected : Except RequestError String) ≠ .error .timeout := by
  exact ⟨rfl, by simp⟩

/-- Claim C6, amended: five consecutive 500 responses followed by one 200
produce exactly the five backoff sleeps 1, 2, 4, 8, 16 seconds before the
success is returned; and when all 10 attempts fail with retryable
conditions, the call returns exactly one Timeout error provided every 429
among them carries no Retry-After header or a visible-ASCII one — a 429
whose header bytes fail `to_str` instead aborts with one Unexpected error
(in particular, ten 5xx responses return exactly one Timeout, after sleeps
1, 2, 4, 8, 16, 16, 16, 16, 16, 16). -/
theorem c6_retry_backoff_schedule :
    (makeRequest (fun b => Except.ok b)
        (fun i => if i < 5 then .ok { status := 500, body := "", retryAfter := none }
                  else .ok { status := 200, body := "ok", retryAfter := none }) =
      (.ok "ok", [1, 2, 4, 8, 16])) ∧
    (∀ (α : Type) (handler : String → Except RequestError α) (resp : Nat → Attempt),
      (∀ j, j < 10 → retryableAttempt (resp j)) →
      (makeRequest handler resp).1 = .error .timeout) ∧
    (makeRequest (fun b => Except.ok b)
        (fun _ => .ok { status := 500, body := "", retryAfter := none }) =
      ((.error .timeout : Except RequestError String),
        [1, 2, 4, 8, 16, 16, 16, 16, 16, 16])) := by
  refine ⟨rfl, ?_, rfl⟩
  intro α handler resp h
  exact makeRequestGo_retryable_timeout handler resp 10 0 1
    (fun j _ h2 => h j (by omega))

/-- Claim C6, witness: the universal exhaustion half applied to ten straight
500 responses. -/
theorem c6_retry_backoff_schedule_witness :
    (makeRequest (fun b => Except.ok b)
        (fun _ => .ok { status := 500, body := "", retryAfter := none })).1 =
      (.error .timeout : Except RequestError String) :=
  c6_retry_backoff_schedule.2.1 String (fun b => Except.ok b)
    (fun _ => .ok { status := 500, body := "", retryAfter := none })
    (fun j _ => Or.inl ⟨by norm_num, by norm_num⟩)

/-- Claim C7, counterexample: a 429 response whose Retry-After header
contains a byte outside the visible-ASCII range (here byte 200) does not
sleep the 10-second default and retry — the header's `to_str` failure
propagates and the call aborts immediately with an Unexpected error,
refuting the claim that every missing-or-unparsable header falls back to
the 10-second sleep. -/
theorem c7_counterexample :
    makeRequest (fun b => Except.ok b)
        (fun i => if i = 0 then .ok { status := 429, body := "", retryAfter := some [200] }
                  else .ok { status := 200, body := "ok", retryAfter := none }) =
      ((.error .unexpected : Except RequestError String), ([] : List Nat)) := by
  rfl

/-- Claim C7, amended: on a 429 response the loop sleeps exactly the parsed
Retry-After seconds, defaults to 10 seconds when the header is missing or is
visible-ASCII text that fails numeric parsing, and aborts with an Unexpected
error when the header bytes are not visible ASCII; the exponential backoff
value is not consumed by a rate-limit retry (after a 429 sleep the next
backoff sleep is still 1 second). -/
theorem c7_rate_limit_behavior
    (handler : String → Except RequestError String) (resp : Nat → Attempt)
    (r r1 : HttpResponse)
    (h0 : resp 0 = .ok r) (hs : r.status = 429)
    (h1 : resp 1 = .ok r1) (hs1 : 200 ≤ r1.status) (hs2 : r1.status ≤ 299) :
    (∀ bytes s n, r.retryAfter = some bytes → headerToStr bytes = some s →
        parseU64 s = some n →
        makeRequest handler resp = (handler r1.body, [n])) ∧
    (r.retryAfter = none → makeRequest handler resp = (handler r1.body, [10])) ∧
    (∀ bytes s, r.retryAfter = some bytes → headerToStr bytes = some s →
        parseU64 s = none →
        makeRequest handler resp = (handler r1.body, [10])) ∧
    (∀ bytes, r.retryAfter = some bytes → headerToStr bytes = none →
        makeRequest handler resp = (.error .unexpected, [])) ∧
    makeRequest (fun b => Except.ok b)
        (fun i => if i = 0 then .ok { status := 429, body := "", retryAfter := some [53] }
                  else if i = 1 then .ok { status := 500, body := "", retryAfter := none }
                  else .ok { status := 200, body := "ok", retryAfter := none }) =
      (.ok "ok", [5, 1]) := by
  refine ⟨?_, ?_, ?_, ?_, ?_⟩
  · intro bytes s n hb hstr hp
    simp [makeRequest, makeRequestGo, h0, h1, hs, hb, hstr, hp, hs1, hs2]
  · intro hb
    simp [makeRequest, makeRequestGo, h0, h1, hs, hb, hs1, hs2]
  · intro bytes s hb hstr hp
    simp [makeRequest, makeRequestGo, h0, h1, hs, hb, hstr, hp, hs1, hs2]
  · intro bytes hb hstr
    simp [makeRequest, makeRequestGo, h0, hs, hb, hstr]
  · rfl

/-- Claim C7, witness: the amended theorem applied to a concrete response
sequence carrying Retry-After 5 (header byte 53). -/
theorem c7_rate_limit_behavior_witness :
    makeRequest (fun b => Except.ok b)
        (fun i => if i = 0 then .ok { status := 429, body := "", retryAfter := some [53] }
                  else .ok { status := 200, body := "ok", retryAfter := none }) =
      ((.ok "ok" : Except RequestError String), [5]) :=
  (c7_rate_limit_behavior (fun b => Except.ok b) _
      { status := 429, body := "", retryAfter := some [53] }
      { status := 200, body := "ok", retryAfter := none }
      rfl rfl rfl (by decide) (by decide)).1 [53] "5" 5 rfl (by decide) (by decide)

/-- Claim C3, amended: a Live event whose category id differs from the last
Segment's category id appends a new Segment; its offset is now minus the
snapshot's start time in seconds when the broadcast id is unchanged, and is
forced to 0 when the broadcast id changed at the same time (the tracked
broadcast id then being updated); a broadcast-id-only change also appends a
Segment at offset 0. -/
theorem c3_segment_offsets (w : StreamWatcher) (env : ClientEnv) (s : Stream)
    (g : Game) (lastSeg : StreamSegment)
    (hlast : w.segments.getLast? = some lastSeg)
    (hgok : env.gameResult = .ok g) (hcont : env.contentOk = true) :
    ((StreamSegment.ofStream env s g).position = env.now - s.started_at) ∧
    (s.game_id ≠ lastSeg.game.id → s.id = w.stream_id →
      (w.update env (.live s)).isSome = true ∧
      ∀ st, w.update env (.live s) = some st →
        st.watcher.segments = w.segments ++ [StreamSegment.ofStream env s g] ∧
        st.watcher.stream_id = w.stream_id ∧
        st.result = .ok .updated) ∧
    (s.id ≠ w.stream_id →
      (w.update env (.live s)).isSome = true ∧
      ∀ st, w.update env (.live s) = some st →
        st.watcher.segments =
          w.segments ++ [{ StreamSegment.ofStream env s g with position := 0 }] ∧
        st.watcher.stream_id = s.id ∧
        st.result = .ok .updated) := by
  have hne : w.segments.isEmpty = false := by
    cases hw : w.segments with
    | nil => rw [hw] at hlast; simp [List.getLast?] at hlast
    | cons a l => simp
  refine ⟨rfl, ?_, ?_⟩
  · intro hgame hvod
    obtain ⟨notifs, heq⟩ :=
      on_update_game_change_only w env s g lastSeg hlast hgok hcont hgame hvod
    have hupd : w.update env (.live s) =
        some { watcher := { w with
                 offline_timestamp := none
                 segments := w.segments ++ [StreamSegment.ofStream env s g] }
               result := .ok .updated
               notifications := notifs } := by
      simp [StreamWatcher.update, hne, heq, Except.map]
    refine ⟨by simp [hupd], ?_⟩
    intro st hst
    rw [hupd] at hst
    injection hst with h
    subst h
    exact ⟨rfl, rfl, rfl⟩
  · intro hvod
    obtain ⟨notifs, heq⟩ := on_update_vod_change w env s g lastSeg hlast hgok hcont hvod
    have hupd : w.update env (.live s) =
        some { watcher := { w with
                 offline_timestamp := none
                 segments := w.segments ++ [{ StreamSegment.ofStream env s g with position := 0 }]
                 stream_id := s.id }
               result := .ok .updated
               notifications := notifs } := by
      simp [StreamWatcher.update, hne, heq, Except.map]
    refine ⟨by simp [hupd], ?_⟩
    intro st hst
    rw [hupd] at hst
    injection hst with h
    subst h
    exact ⟨rfl, rfl, rfl⟩

/-- Claim C3, witness: the amended theorem applied to the fixtures — the
category-only change is 77 seconds into the session, and both change shapes
produce a defined update. -/
theorem c3_segment_offsets_witness :
    (StreamSegment.ofStream envGameOk fixtureStream
        { id := "509658", name := "Just Dancing" }).position = 77 ∧
    (fixtureWatcher.update envGameOk (.live fixtureStream)).isSome = true ∧
    (fixtureWatcher.update envGameOk (.live fixtureStreamNewVod)).isSome = true := by
  refine ⟨?_, ?_, ?_⟩
  · have h := (c3_segment_offsets fixtureWatcher envGameOk fixtureStream
      { id := "509658", name := "Just Dancing" } fixtureSegment rfl rfl rfl).1
    simpa using h
  · exact ((c3_segment_offsets fixtureWatcher envGameOk fixtureStream
      { id := "509658", name := "Just Dancing" } fixtureSegment rfl rfl rfl).2.1
        (by decide) rfl).1
  · exact ((c3_segment_offsets fixtureWatcher envGameOk fixtureStreamNewVod
      { id := "509658", name := "Just Dancing" } fixtureSegment rfl rfl rfl).2.2
        (by decide)).1

/-- Claim C5: while the segment list is non-empty, a Live event whose
broadcast id equals the tracked stream id and whose category id equals the
last Segment's category id appends no Segment, reports Unchanged and emits
no notification, and arbitrarily many repetitions of that event still leave
the segment list untouched and notify nobody. -/
theorem c5_idempotent_repeated_live (w : StreamWatcher) (env : ClientEnv)
    (s : Stream) (lastSeg : StreamSegment)
    (hlast : w.segments.getLast? = some lastSeg)
    (hvod : s.id = w.stream_id) (hgame : s.game_id = lastSeg.game.id) :
    (w.update env (.live s) =
      some { watcher := { w with offline_timestamp := none }
             result := .ok .unchanged
             notifications := [] }) ∧
    ∀ n, (iterLive env s n w).1.segments = w.segments ∧
      (iterLive env s n w).2 = [] := by
  refine ⟨update_matching_live w env s lastSeg hlast hvod hgame, ?_⟩
  have aux : ∀ n (w' : StreamWatcher), w'.segments.getLast? = some lastSeg →
      s.id = w'.stream_id →
      (iterLive env s n w').1.segments = w'.segments ∧ (iterLive env s n w').2 = [] := by
    intro n
    induction n with
    | zero => intro w' h1 h2; exact ⟨rfl, rfl⟩
    | succ n ih =>
        intro w' h1 h2
        have hstep := update_matching_live w' env s lastSeg h1 h2 hgame
        have hrec := ih { w' with offline_timestamp := none } h1 h2
        simp [iterLive, hstep]
        exact hrec
  intro n
  exact aux n w hlast hvod

/-- Claim C5, witness: five repetitions of the matching Live event against
the fixture watcher leave its single segment in place and emit nothing. -/
theorem c5_idempotent_repeated_live_witness :
    (fixtureWatcher.update envGameOk (.live fixtureStreamSame) =
      some { watcher := { fixtureWatcher with offline_timestamp := none }
             result := .ok .unchanged
             notifications := [] }) ∧
    (iterLive envGameOk fixtureStreamSame 5 fixtureWatcher).1.segments =
      fixtureWatcher.segments ∧
    (iterLive envGameOk fixtureStreamSame 5 fixtureWatcher).2 = [] := by
  have h := c5_idempotent_repeated_live fixtureWatcher envGameOk
    fixtureStreamSame fixtureSegment rfl rfl rfl
  exact ⟨h.1, (h.2 5).1, (h.2 5).2⟩

/-- Claim C10: in the grace period, a Live event with unchanged broadcast id
and category clears the offline deadline — a genuine mutation — yet update
reports Unchanged, and the actor persists only on Updated, so the actor run
ends with the mutated watcher and an empty list of saved snapshots. -/
theorem c10_unchanged_mutation_not_persisted (w : StreamWatcher)
    (env : ClientEnv) (s : Stream) (lastSeg : StreamSegment) (d t0 t hd : Nat)
    (hlast : w.segments.getLast? = some lastSeg)
    (hvod : s.id = w.stream_id) (hgame : s.game_id = lastSeg.game.id)
    (hoff : w.offline_timestamp = some d) (ht : t0 < t) :
    (w.update env (.live s) =
      some { watcher := { w with offline_timestamp := none }
             result := .ok .unchanged
             notifications := [] }) ∧
    ({ w with offline_timestamp := none } ≠ w) ∧
    (runActor true w t0
      [{ time := t, env := env, event := .live s, handleDuration := hd }]).saves = [] ∧
    (runActor true w t0
      [{ time := t, env := env, event := .live s, handleDuration := hd }]).watcher =
      { w with offline_timestamp := none } := by
  have hstep := update_matching_live w env s lastSeg hlast hvod hgame
  have hskip : ¬ (t ≤ t0) := Nat.not_le.mpr ht
  refine ⟨hstep, ?_, ?_, ?_⟩
  · intro hEq
    have hproj := congrArg StreamWatcher.offline_timestamp hEq
    rw [hoff] at hproj
    simp at hproj
  · simp [runActor, runActorGo, hskip, hstep]
  · simp [runActor, runActorGo, hskip, hstep]

/-- Claim C10, witness: the theorem applied to the fixture watcher (deadline
5000) and a matching Live event arriving at t = 100 after a spawn at 0. -/
theorem c10_unchanged_mutation_not_persisted_witness :
    (runActor true fixtureWatcher 0
        [{ time := 100, env := envGameOk, event := .live fixtureStreamSame,
           handleDuration := 0 }]).saves = [] ∧
    (runActor true fixtureWatcher 0
        [{ time := 100, env := envGameOk, event := .live fixtureStreamSame,
           handleDuration := 0 }]).watcher =
      { fixtureWatcher with offline_timestamp := none } := by
  have h := c10_unchanged_mutation_not_persisted fixtureWatcher envGameOk
    fixtureStreamSame fixtureSegment 5000 0 100 0 rfl rfl rfl rfl (by decide)
  exact ⟨h.2.2.1, h.2.2.2⟩

/-! ## Helper lemmas for the actor loop, the cache and the round trip -/

/-- With a non-empty segment list, `on_update` never panics. -/
theorem on_update_isSome (w : StreamWatcher) (env : ClientEnv) (s : Stream)
    (lastSeg : StreamSegment) (hlast : w.segments.getLast? = some lastSeg) :
    (w.on_update env s).isSome = true := by
  simp only [StreamWatcher.on_update, hlast]
  repeat' split
  all_goals simp

/-- Handling a Live event never panics: the go-live path is total and the
update path is guarded by a non-empty segment list. -/
theorem update_live_isSome (w : StreamWatcher) (env : ClientEnv) (s : Stream) :
    (w.update env (.live s)).isSome = true := by
  by_cases h : w.segments.isEmpty
  · simp [StreamWatcher.update, h]
  · have hex : ∃ lastSeg, w.segments.getLast? = some lastSeg := by
      cases hw : w.segments with
      | nil => rw [hw] at h; simp at h
      | cons a l =>
          exact ⟨(a :: l).getLast (by simp), List.getLast?_eq_getLast _ _⟩
    obtain ⟨lastSeg, hlast⟩ := hex
    simp [StreamWatcher.update, h, Option.isSome_map, on_update_isSome w env s lastSeg hlast]

/-- Handling a Live event never reports the Ended outcome. -/
theorem update_live_not_ended (w : StreamWatcher) (env : ClientEnv) (s : Stream)
    (st : Step WatcherState) (hst : w.update env (.live s) = some st) :
    st.result ≠ .ok .ended := by
  by_cases h : w.segments.isEmpty
  · simp only [StreamWatcher.update, h, if_true] at hst
    injection hst with h2
    subst h2
    cases hres : (w.on_go_live env s).result <;> simp [Except.map, hres]
  · simp only [StreamWatcher.update, h, Bool.false_eq_true, if_false] at hst
    rw [Option.map_eq_some'] at hst
    obtain ⟨a, ha, hFa⟩ := hst
    subst hFa
    cases hres : a.result with
    | error err => simp [Except.map, hres]
    | ok b => cases b <;> simp [Except.map, hres]

/-- The events an actor run passes to `update` extend the already-processed
list by a subsequence of the delivered events: no reordering and no
duplication, only drops. -/
theorem runActorGo_processed_sublist (c : Bool) :
    ∀ (events : List ActorEvent) (st : ActorState),
      ∃ l, (runActorGo c events st).processed = st.processed ++ l ∧
        l.Sublist (events.map ActorEvent.event) := by
  intro events
  induction events with
  | nil => exact fun st => ⟨[], by simp [runActorGo], List.nil_sublist _⟩
  | cons e rest ih =>
      intro st
      by_cases hskip : e.time ≤ st.nextUpdate
      · obtain ⟨l, h1, h2⟩ := ih st
        refine ⟨l, ?_, h2.cons _⟩
        rw [show runActorGo c (e :: rest) st = runActorGo c rest st from by
          simp [runActorGo, hskip]]
        exact h1
      · cases hupd : st.watcher.update e.env e.event with
        | none =>
            refine ⟨[e.event], ?_, List.Sublist.cons₂ _ (List.nil_sublist _)⟩
            simp [runActorGo, hskip, hupd]
        | some step =>
            cases hres : step.result with
            | error err =>
                obtain ⟨l, h1, h2⟩ := ih { st with
                  watcher := step.watcher
                  processed := st.processed ++ [e.event] }
                refine ⟨e.event :: l, ?_, List.Sublist.cons₂ _ h2⟩
                rw [show runActorGo c (e :: rest) st = runActorGo c rest { st with
                    watcher := step.watcher
                    processed := st.processed ++ [e.event] } from by
                  simp [runActorGo, hskip, hupd, hres]]
                rw [h1]
                simp
            | ok ws =>
                cases ws with
                | ended =>
                    refine ⟨[e.event], ?_, List.Sublist.cons₂ _ (List.nil_sublist _)⟩
                    simp [runActorGo, hskip, hupd, hres]
                | unchanged =>
                    obtain ⟨l, h1, h2⟩ := ih { st with
                      watcher := step.watcher
                      processed := st.processed ++ [e.event] }
                    refine ⟨e.event :: l, ?_, List.Sublist.cons₂ _ h2⟩
                    rw [show runActorGo c (e :: rest) st = runActorGo c rest { st with
                        watcher := step.watcher
                        processed := st.processed ++ [e.event] } from by
                      simp [runActorGo, hskip, hupd, hres]]
                    rw [h1]
                    simp
                | updated =>
                    obtain ⟨l, h1, h2⟩ := ih { (if c then { st with
                        watcher := step.watcher
                        processed := st.processed ++ [e.event]
                        saves := st.saves ++ [step.watcher] }
                      else { st with
                        watcher := step.watcher
                        processed := st.processed ++ [e.event] }) with
                      nextUpdate := e.time + e.handleDuration + 60 }
                    refine ⟨e.event :: l, ?_, List.Sublist.cons₂ _ h2⟩
                    rw [show runActorGo c (e :: rest) st = runActorGo c rest { (if c then { st with
                        watcher := step.watcher
                        processed := st.processed ++ [e.event]
                        saves := st.saves ++ [step.watcher] }
                      else { st with
                        watcher := step.watcher
                        processed := st.processed ++ [e.event] }) with
                      nextUpdate := e.time + e.handleDuration + 60 } from by
                      simp [runActorGo, hskip, hupd, hres]]
                    rw [h1]
                    cases c <;> simp

/-- When every delivered event is a Live event, consecutive arrivals are
more than 60 seconds apart, and the first arrival is after the current
cooldown deadline, the actor processes every event. -/
theorem runActorGo_all_live_processed (c : Bool) :
    ∀ (events : List ActorEvent) (st : ActorState),
      (∀ e ∈ events, ∃ s, e.event = .live s) →
      List.Chain' (fun a b => a.time + a.handleDuration + 60 < b.time) events →
      (∀ e, events.head? = some e → st.nextUpdate < e.time) →
      (runActorGo c events st).processed = st.processed ++ events.map ActorEvent.event := by
  intro events
  induction events with
  | nil => intro st _ _ _; simp [runActorGo]
  | cons e rest ih =>
      intro st hlive hchain hhead
      have hlt : st.nextUpdate < e.time := hhead e rfl
      have hskip : ¬ (e.time ≤ st.nextUpdate) := Nat.not_le.mpr hlt
      obtain ⟨s, hs⟩ := hlive e (List.mem_cons_self e rest)
      have hsome : (st.watcher.update e.env e.event).isSome = true := by
        rw [hs]; exact update_live_isSome st.watcher e.env s
      obtain ⟨step, hupd⟩ := Option.isSome_iff_exists.mp hsome
      have hchain2 := (List.chain'_cons'.mp hchain).2
      have hgap := (List.chain'_cons'.mp hchain).1
      have hnotended : step.result ≠ .ok .ended := by
        apply update_live_not_ended st.watcher e.env s
        rw [← hs]; exact hupd
      have hlive2 : ∀ e2 ∈ rest, ∃ s2, e2.event = .live s2 :=
        fun e2 he2 => hlive e2 (List.mem_cons_of_mem e he2)
      cases hres : step.result with
      | error err =>
          have hrec := ih { st with
              watcher := step.watcher
              processed := st.processed ++ [e.event] } hlive2 hchain2
            (by
              intro e2 he2
              have hg2 := hgap e2 (by simp [he2])
              show st.nextUpdate < e2.time
              omega)
          rw [show runActorGo c (e :: rest) st = runActorGo c rest { st with
              watcher := step.watcher
              processed := st.processed ++ [e.event] } from by
            simp [runActorGo, hskip, hupd, hres]]
          rw [hrec]
          simp
      | ok ws =>
          cases ws with
          | ended => exact absurd hres hnotended
          | unchanged =>
              have hrec := ih { st with
                  watcher := step.watcher
                  processed := st.processed ++ [e.event] } hlive2 hchain2
                (by
                  intro e2 he2
                  have hg2 := hgap e2 (by simp [he2])
                  show st.nextUpdate < e2.time
                  omega)
              rw [show runActorGo c (e :: rest) st = runActorGo c rest { st with
                  watcher := step.watcher
                  processed := st.processed ++ [e.event] } from by
                simp [runActorGo, hskip, hupd, hres]]
              rw [hrec]
              simp
          | updated =>
              have hrec := ih { (if c then { st with
                  watcher := step.watcher
                  processed := st.processed ++ [e.event]
                  saves := st.saves ++ [step.watcher] }
                else { st with
                  watcher := step.watcher
                  processed := st.processed ++ [e.event] }) with
                nextUpdate := e.time + e.handleDuration + 60 } hlive2 hchain2
                (by
                  intro e2 he2
                  have hg2 := hgap e2 (by simp [he2])
                  simpa using hg2)
              rw [show runActorGo c (e :: rest) st = runActorGo c rest { (if c then { st with
                  watcher := step.watcher
                  processed := st.processed ++ [e.event]
                  saves := st.saves ++ [step.watcher] }
                else { st with
                  watcher := step.watcher
                  processed := st.processed ++ [e.event] }) with
                nextUpdate := e.time + e.handleDuration + 60 } from by
                simp [runActorGo, hskip, hupd, hres]]
              rw [hrec]
              cases c <;> simp

/-- Removing a key that is not present leaves the recency list unchanged. -/
theorem lruRemoveKey_of_not_mem (k : String) (l : List (String × Game))
    (h : k ∉ l.map Prod.fst) : lruRemoveKey k l = l := by
  rw [lruRemoveKey, List.filter_eq_self]
  intro a ha
  have hne : a.1 ≠ k := fun hk => h (hk ▸ List.mem_map_of_mem Prod.fst ha)
  simpa using hne

/-- Searching for an absent key fails. -/
theorem find_key_none (k : String) (l : List (String × Game))
    (h : k ∉ l.map Prod.fst) : l.find? (fun p => p.1 = k) = none := by
  rw [List.find?_eq_none]
  intro a ha
  have hne : a.1 ≠ k := fun hk => h (hk ▸ List.mem_map_of_mem Prod.fst ha)
  simpa using hne

/-- A lookup of a fresh non-empty key misses, fetches once, and pushes the
result to the front, truncating at capacity. -/
theorem getGameById_fresh (es : List (String × Game)) (k : String) (g : Game)
    (hk : k ≠ "") (h : k ∉ es.map Prod.fst) :
    getGameById ⟨es⟩ k (.ok g) =
      (.ok g, ⟨List.take lruCapacity ((k, g) :: es)⟩, 1) := by
  simp [getGameById, hk, LruCache.get, find_key_none k es h, LruCache.push,
    lruRemoveKey_of_not_mem k es h]

/-- Truncation absorbs an inner truncation under one new head element. -/
theorem take_cons_take (n : Nat) (x : α) (l : List α) :
    List.take n (x :: List.take n l) = List.take n (x :: l) := by
  cases n with
  | zero => rfl
  | succ n => simp [List.take_succ_cons, List.take_take]

/-- Folding distinct, non-empty category ids through the cache leaves
exactly the most recent `lruCapacity` ids as keys, in recency order. -/
theorem foldGetGames_keys (games : String → Game) (ids : List String)
    (hnodup : ids.Nodup) (hne : ∀ id ∈ ids, id ≠ "") :
    (foldGetGames games ⟨[]⟩ ids).entries.map Prod.fst =
      ids.reverse.take lruCapacity := by
  induction ids using List.reverseRecOn with
  | nil => rfl
  | append_singleton l id ih =>
      have hsplit := List.nodup_append.mp hnodup
      have hlnodup : l.Nodup := hsplit.1
      have hidl : id ∉ l := by
        intro hmem
        exact hsplit.2.2 hmem (List.mem_singleton_self id)
      have hlne : ∀ i ∈ l, i ≠ "" := fun i hi => hne i (List.mem_append_left _ hi)
      have hidne : id ≠ "" := hne id (List.mem_append_right _ (List.mem_singleton_self id))
      have ihkeys := ih hlnodup hlne
      have hstep : foldGetGames games ⟨[]⟩ (l ++ [id]) =
          (getGameById (foldGetGames games ⟨[]⟩ l) id (.ok (games id))).2.1 := by
        simp [foldGetGames, List.foldl_append]
      have hfresh : id ∉ (foldGetGames games ⟨[]⟩ l).entries.map Prod.fst := by
        rw [ihkeys]
        intro hmem
        exact hidl (List.mem_reverse.mp (List.take_subset _ _ hmem))
      obtain ⟨es, hes⟩ : ∃ es, foldGetGames games ⟨[]⟩ l = ⟨es⟩ :=
        ⟨(foldGetGames games ⟨[]⟩ l).entries, rfl⟩
      rw [hes] at ihkeys hfresh
      rw [hstep, hes, getGameById_fresh es id (games id) hidne hfresh]
      simp only [List.map_take, List.map_cons]
      rw [ihkeys, take_cons_take]
      simp [List.reverse_append]

/-- The serde projection of a `Game` decodes back to itself. -/
theorem decode_encode_game (g : Game) : decodeGame (encodeGame g) = some g := by
  simp [decodeGame, encodeGame, Json.getField, Json.asStr, List.find?]

/-- The serde projection of a `StreamSegment` decodes back to itself. -/
theorem decode_encode_segment (s : StreamSegment) :
    decodeSegment (encodeSegment s) = some s := by
  simp [decodeSegment, encodeSegment, decode_encode_game, Json.getField,
    Json.asStr, Json.asNum, List.find?, decodeGame, encodeGame]

/-- Decoding a list of encoded segments succeeds element-wise. -/
theorem mapM_loop_decode (l acc : List StreamSegment) :
    List.mapM.loop decodeSegment (l.map encodeSegment) acc = some (acc.reverse ++ l) := by
  induction l generalizing acc with
  | nil => simp [List.mapM.loop]
  | cons x xs ih => simp [List.mapM.loop, decode_encode_segment, ih]

/-- The segment-list round trip. -/
theorem decode_encode_segments (l : List StreamSegment) :
    (l.map encodeSegment).mapM decodeSegment = some l := by
  simp [List.mapM, mapM_loop_decode]

/-! ## Claim theorems, continued -/

/-- Claim C2, amended: the actor passes events to `update` in arrival order
with none reordered or duplicated (the processed sequence is a subsequence
of the delivered sequence), and when every delivered event is a Live event,
each event arrives more than 60 seconds after the *completion* of the
previous event's handling (arrival plus handling duration) and the first
arrives after the spawn instant, no event is dropped at all — drops can
only come from the cooldown that ends 60 seconds after an Updated event's
handling and save complete. -/
theorem c2_ordered_processing_with_cooldown :
    (∀ (cacheEnabled : Bool) (w : StreamWatcher) (t0 : Nat) (events : List ActorEvent),
        (runActor cacheEnabled w t0 events).processed.Sublist
          (events.map ActorEvent.event)) ∧
    (∀ (cacheEnabled : Bool) (w : StreamWatcher) (t0 : Nat) (events : List ActorEvent),
        (∀ e ∈ events, ∃ s, e.event = .live s) →
        List.Chain' (fun a b => a.time + a.handleDuration + 60 < b.time) events →
        (∀ e, events.head? = some e → t0 < e.time) →
        (runActor cacheEnabled w t0 events).processed = events.map ActorEvent.event) := by
  constructor
  · intro c w t0 events
    obtain ⟨l, h1, h2⟩ := runActorGo_processed_sublist c events
      { watcher := w, nextUpdate := t0, processed := [], saves := [] }
    rw [runActor, h1]
    simpa using h2
  · intro c w t0 events hlive hchain hhead
    have h := runActorGo_all_live_processed c events
      { watcher := w, nextUpdate := t0, processed := [], saves := [] } hlive hchain hhead
    rw [runActor, h]
    simp

/-- Claim C2, witness: two Live events, the second arriving 101 seconds
after the first (whose handling took 30 seconds), are both processed by the
fixture actor, in order. -/
theorem c2_ordered_processing_with_cooldown_witness :
    (runActor true fixtureWatcher 0
        [{ time := 100, env := envGameOk, event := .live fixtureStreamSame,
           handleDuration := 30 },
         { time := 201, env := envGameOk, event := .live fixtureStreamSame,
           handleDuration := 0 }]).processed =
      [.live fixtureStreamSame, .live fixtureStreamSame] := by
  have h := c2_ordered_processing_with_cooldown.2 true fixtureWatcher 0
    [{ time := 100, env := envGameOk, event := .live fixtureStreamSame,
       handleDuration := 30 },
     { time := 201, env := envGameOk, event := .live fixtureStreamSame,
       handleDuration := 0 }]
    (by
      intro e he
      rcases List.mem_cons.mp he with h1 | h1
      · exact ⟨fixtureStreamSame, by rw [h1]⟩
      · rcases List.mem_cons.mp h1 with h2 | h2
        · exact ⟨fixtureStreamSame, by rw [h2]⟩
        · exact absurd h2 (List.not_mem_nil e))
    (by constructor <;> simp)
    (by
      intro e he
      injection he with he2
      rw [← he2]
      decide)
  simpa using h

/-- Claim C8: the serde projection a `StreamWatcher` passes through the
Persistence Store decodes back to a watcher with identical segment list,
session start timestamp and broadcast id, the skipped configuration
reference being replaced by its default. -/
theorem c8_roundtrip (w : StreamWatcher) :
    decodeWatcher (encodeWatcher w) = some { w with config := Config.defaultConfig } := by
  cases hoff : w.offline_timestamp with
  | none =>
      simp [decodeWatcher, encodeWatcher, hoff, Json.getField, Json.asStr, Json.asNum,
        Json.asArr, List.find?, decode_encode_segments, mapM_loop_decode]
  | some t =>
      simp [decodeWatcher, encodeWatcher, hoff, Json.getField, Json.asStr, Json.asNum,
        Json.asArr, List.find?, decode_encode_segments, mapM_loop_decode]

/-- Claim C9: the empty-string category id short-circuits to the empty
sentinel without touching the cache or issuing a request; folding distinct
non-empty ids through the capacity-100 cache keeps exactly the 100 most
recent keys, so the 101st distinct insert evicts precisely the
least-recently-used (first-inserted) entry and the cache never exceeds 100
entries. -/
theorem c9_category_cache :
    (∀ (c : LruCache) (fetch : Except RequestError Game),
        getGameById c "" fetch = (.ok Game.empty, c, 0)) ∧
    (∀ (games : String → Game) (ids : List String), ids.Nodup →
        (∀ id ∈ ids, id ≠ "") →
        (foldGetGames games ⟨[]⟩ ids).entries.map Prod.fst =
          ids.reverse.take lruCapacity) ∧
    (∀ (games : String → Game) (h : String) (rest : List String),
        (h :: rest).Nodup → (∀ id ∈ h :: rest, id ≠ "") →
        rest.length = 100 →
        h ∉ (foldGetGames games ⟨[]⟩ (h :: rest)).entries.map Prod.fst ∧
        ((foldGetGames games ⟨[]⟩ (h :: rest)).entries.map Prod.fst).length = 100) := by
  refine ⟨?_, foldGetGames_keys, ?_⟩
  · intro c fetch
    simp [getGameById]
  · intro games h rest hnodup hne hlen
    have hkeys := foldGetGames_keys games (h :: rest) hnodup hne
    have hrev : (h :: rest).reverse = rest.reverse ++ [h] := by simp
    have htake : (rest.reverse ++ [h]).take lruCapacity = rest.reverse := by
      apply List.take_left'
      simpa using hlen
    rw [hkeys, hrev, htake]
    have hmem : h ∉ rest := (List.nodup_cons.mp hnodup).1
    constructor
    · simpa using hmem
    · simpa using hlen

set_option maxRecDepth 4000

/-- Claim C9, witness: the theorem applied to 101 concrete pairwise-distinct
ids (the decimal numerals 0 through 100): the first-inserted id is evicted
and exactly 100 keys remain; the empty id leaves an empty cache untouched. -/
theorem c9_category_cache_witness :
    getGameById ⟨[]⟩ "" (.ok (fixtureGames "7")) = (.ok Game.empty, ⟨[]⟩, 0) ∧
    (foldGetGames fixtureGames ⟨[]⟩ ("0" :: fixtureIds.tail)).entries.map Prod.fst =
      ("0" :: fixtureIds.tail).reverse.take lruCapacity ∧
    "0" ∉ (foldGetGames fixtureGames ⟨[]⟩ ("0" :: fixtureIds.tail)).entries.map Prod.fst ∧
    ((foldGetGames fixtureGames ⟨[]⟩ ("0" :: fixtureIds.tail)).entries.map
      Prod.fst).length = 100 := by
  have hnodup : ("0" :: fixtureIds.tail).Nodup := by decide
  have hne : ∀ id ∈ ("0" :: fixtureIds.tail), id ≠ "" := by decide
  have hlen : fixtureIds.tail.length = 100 := by decide
  obtain ⟨h3, h4⟩ := c9_category_cache.2.2 fixtureGames "0" fixtureIds.tail hnodup hne hlen
  exact ⟨c9_category_cache.1 ⟨[]⟩ (.ok (fixtureGames "7")),
    c9_category_cache.2.1 fixtureGames ("0" :: fixtureIds.tail) hnodup hne, h3, h4⟩

end Strumbot
